import Mathlib

/-!
Verification of the security/identity subsystem of the vm_ai_agent repository
(`vm_agent/tools/security_manager.py` and `vm_agent/server.py`), as a shallow
embedding in Lean 4.  Pure string manipulation is embedded exactly; the
filesystem is an explicit record of the six security files; cryptographic
library primitives (RSA, AES, SHA-256, PEM parsing) are abstracted as
parameters or injective constructors, while every branch and field written by
the repository code itself is translated faithfully.
-/

namespace VmAgent

/-! ## String helpers (Python semantics) -/

/-- Python whitespace characters recognised by `str.strip()`. -/
def isPySpace (c : Char) : Bool :=
  c = ' ' || c = '\t' || c = '\n' || c = '\x0d' || c = '\x0c' || c = '\x0b'

/-- Python `str.strip()`: drop leading and trailing whitespace. -/
def pyStrip (s : String) : String :=
  ⟨((s.data.dropWhile isPySpace).reverse.dropWhile isPySpace).reverse⟩

/-- `matchesAt pat s`: does `pat` occur at the head of `s`? -/
def matchesAt : List Char → List Char → Bool
  | [], _ => true
  | _ :: _, [] => false
  | p :: ps, c :: cs => p == c && matchesAt ps cs

/-- Worker for `pyRemoveAll`, structurally recursive on a fuel bound (one
unit of fuel per character consumed, so `l.length` fuel always suffices). -/
def pyRemoveAllAux (pat : List Char) : Nat → List Char → List Char
  | 0, l => l
  | _ + 1, [] => []
  | fuel + 1, c :: cs =>
    if pat ≠ [] ∧ matchesAt pat (c :: cs) = true then
      pyRemoveAllAux pat fuel ((c :: cs).drop pat.length)
    else
      c :: pyRemoveAllAux pat fuel cs

/-- Python `str.replace(pat, "")` on character lists: delete every
(non-overlapping, leftmost-first) occurrence of `pat`. -/
def pyRemoveAll (pat l : List Char) : List Char :=
  pyRemoveAllAux pat l.length l

/-- `"…".replace("Bearer ", "")` from `auth_middleware`. -/
def bearerStrip (s : String) : String :=
  ⟨pyRemoveAll "Bearer ".data s.data⟩

/-! ## verify_api_key (spec-modelled) and the constant-time comparison -/

/-- Accumulated difference count between two byte strings, processing every
position with no early exit; models `hmac.compare_digest` (zero accumulator
iff the inputs are identical). -/
def ct_diff : List Char → List Char → Nat
  | [], [] => 0
  | [], _ :: _ => 1
  | _ :: _, [] => 1
  | x :: xs, y :: ys => (if x = y then 0 else 1) + ct_diff xs ys

/-- Constant-time string comparison (functional model of
`hmac.compare_digest`). -/
def constant_time_compare (a b : String) : Bool :=
  ct_diff a.data b.data == 0

/-- Modelled from the spec: `SecurityManager.verify_api_key` is invoked by
`auth_middleware` in `vm_agent/server.py` and by `scripts/test_server.py`,
but no definition of it appears under src/.  Spec 4.1: "constant-time
equality check against the stored key; returns false (never throws) on
missing key material."  The stored key is `none` when no key material is
loaded. -/
def verify_api_key (stored : Option String) (candidate : String) : Bool :=
  match stored with
  | none => false
  | some k => constant_time_compare k candidate

theorem ct_diff_eq_zero_iff (a b : List Char) : ct_diff a b = 0 ↔ a = b := by
  induction a generalizing b with
  | nil => cases b <;> simp [ct_diff]
  | cons x xs ih =>
    cases b with
    | nil => simp [ct_diff]
    | cons y ys =>
      by_cases h : x = y <;> simp [ct_diff, h, ih]

theorem constant_time_compare_iff (a b : String) :
    constant_time_compare a b = true ↔ a = b := by
  unfold constant_time_compare
  rw [beq_iff_eq, ct_diff_eq_zero_iff]
  constructor
  · intro h
    cases a; cases b; exact congrArg String.mk h
  · intro h; rw [h]

/-! ## auth_middleware (`vm_agent/server.py`, create_app) -/

/-- The headers `auth_middleware` inspects; `none` means the header is
absent from the request. -/
structure HttpRequest where
  path : String
  xApiKey : Option String
  authorization : Option String
deriving DecidableEq

/-- Outcome of the middleware: hand the request to the route handler, or
short-circuit with an HTTP error response. -/
inductive AuthOutcome where
  | passed : AuthOutcome
  | denied (status : Nat) (body : String) : AuthOutcome
deriving DecidableEq

/-- Body of `web.json_response({'error': 'Unauthorized'}, status=401)`. -/
def unauthorizedBody : String := "\x7b\"error\": \"Unauthorized\"\x7d"

/-- `request.headers.get('X-API-Key') or
request.headers.get('Authorization', '').replace('Bearer ', '')`:
Python `or` falls through on `None` and on the empty string. -/
def extracted_api_key (r : HttpRequest) : String :=
  match r.xApiKey with
  | some v => if v = "" then bearerStrip (r.authorization.getD "") else v
  | none => bearerStrip (r.authorization.getD "")

/-- `auth_middleware` from `VMAgentServer.create_app`: public paths skip
authentication; otherwise the extracted credential is checked with
`verify_api_key` and failures get the uniform 401 response. -/
def auth_middleware (stored_api_key : Option String) (r : HttpRequest) :
    AuthOutcome :=
  if r.path = "/health" ∨ r.path = "/api/v1/ca-certificate" then
    .passed
  else if verify_api_key stored_api_key (extracted_api_key r) then
    .passed
  else
    .denied 401 unauthorizedBody

/-! ## Abstract cryptographic primitives

`cryptography.hazmat` RSA keys are abstracted: a private key records the
parameters passed to `rsa.generate_private_key` plus the randomness the
CSPRNG consumed (`seed`), which determines the key; the public key is the
injective image of the private key. -/

structure RSAPrivateKey where
  public_exponent : Nat
  key_size : Nat
  seed : Nat
deriving DecidableEq

structure RSAPublicKey where
  public_exponent : Nat
  key_size : Nat
  seed : Nat
deriving DecidableEq

/-- `rsa.generate_private_key(public_exponent, key_size)`; `seed` is the
fresh entropy drawn from the CSPRNG during this call. -/
def generate_private_key (e keySize seed : Nat) : RSAPrivateKey :=
  ⟨e, keySize, seed⟩

/-- `private_key.public_key()`. -/
def publicKeyOf (k : RSAPrivateKey) : RSAPublicKey :=
  ⟨k.public_exponent, k.key_size, k.seed⟩

/-- One `x509.NameAttribute` of a subject name. -/
structure NameAttr where
  oid : String
  value : String
deriving DecidableEq

/-- A PKCS#10 certificate signing request as assembled by
`x509.CertificateSigningRequestBuilder`: subject, SubjectAlternativeName
DNS entries, the embedded public key, and the key that produced the
signature (`.sign(private_key, SHA256)`). -/
structure CSR where
  subject : List NameAttr
  san_dns : List String
  public_key : RSAPublicKey
  signing_key : RSAPrivateKey
deriving DecidableEq

/-- Signature verification of a CSR against its embedded public key: the
signature checks out exactly when the embedded key is the public half of
the signing key. -/
def csr_signature_valid (c : CSR) : Bool :=
  publicKeyOf c.signing_key == c.public_key

/-- First subject attribute with the given OID (`x509.Name` lookup). -/
def subjectAttr (c : CSR) (oid : String) : Option String :=
  (c.subject.find? (fun a => a.oid == oid)).map NameAttr.value

/-! ## The on-disk security directory

`SecurityManager.__init__` fixes six file paths under `config_dir`; we model
the directory as one record, `none` meaning the file does not exist.
`vm.key` and `vm.csr` hold PEM renderings of the abstract objects (PEM
encoding is injective, so the file content is identified with the object);
the remaining files hold raw strings. -/

structure SecurityFiles where
  vm_id_file : Option String
  api_key_file : Option String
  vm_key_file : Option RSAPrivateKey
  vm_csr_file : Option CSR
  vm_cert_file : Option String
  ca_cert_file : Option String
deriving DecidableEq

/-- `SecurityManager._get_or_create_vm_id`: reuse `vm.id` (stripped) when the
file exists, else persist `"vm-" + uuid4().hex[:12]`.  `fresh_hex12` is the
randomness drawn from `uuid.uuid4()` at this call.  Returns the value, the
updated directory, and whether a write to `vm.id` happened. -/
def get_or_create_vm_id (fs : SecurityFiles) (fresh_hex12 : String) :
    String × SecurityFiles × Bool :=
  match fs.vm_id_file with
  | some content => (pyStrip content, fs, false)
  | none =>
    let vm_id := "vm-" ++ fresh_hex12
    (vm_id, { fs with vm_id_file := some vm_id }, true)

/-- `SecurityManager._get_or_create_api_key`: reuse `api.key` (stripped) when
the file exists, else persist `secrets.token_urlsafe(32)` (the fresh token
drawn at this call) and chmod it to 0600. -/
def get_or_create_api_key (fs : SecurityFiles) (fresh_token : String) :
    String × SecurityFiles × Bool :=
  match fs.api_key_file with
  | some content => (pyStrip content, fs, false)
  | none =>
    (fresh_token, { fs with api_key_file := some fresh_token }, true)

/-- `SecurityManager._generate_keypair_and_csr`: generate a fresh 2048-bit
RSA key with public exponent 65537, write it to `vm.key` (mode 0600), build
the CSR with subject CN = vm_id, O = "VM-Agent" and a SAN DNSName(vm_id),
sign it with the fresh key, write it to `vm.csr`, and return both. -/
def generate_keypair_and_csr (fs : SecurityFiles) (vm_id : String)
    (seed : Nat) : (RSAPrivateKey × CSR) × SecurityFiles :=
  let private_key := generate_private_key 65537 2048 seed
  let fs1 := { fs with vm_key_file := some private_key }
  let csr : CSR :=
    { subject := [⟨"CN", vm_id⟩, ⟨"O", "VM-Agent"⟩]
      san_dns := [vm_id]
      public_key := publicKeyOf private_key
      signing_key := private_key }
  ((private_key, csr), { fs1 with vm_csr_file := some csr })

/-! ## Registration against the orchestrator -/

/-- JSON values appearing in the registration payload. -/
inductive JVal where
  | s (v : String) : JVal
  | obj (v : List (String × Bool)) : JVal
deriving DecidableEq

/-- The `registration_data` dict literal built by
`SecurityManager._request_certificate`. -/
def build_registration_data (vm_id api_key csr hostname
    registration_time : String) : List (String × JVal) :=
  [("vm_id", .s vm_id),
   ("api_key", .s api_key),
   ("csr", .s csr),
   ("hostname", .s hostname),
   ("registration_time", .s registration_time),
   ("agent_version", .s "1.0.0"),
   ("capabilities", .obj
      [("shell_executor", true),
       ("file_manager", true),
       ("system_monitor", true),
       ("log_analyzer", true)])]

/-- Modelled from the spec: `WebSocketCommandHandler.register_agent`
(`vm_agent/tools/websocket_handler.py`) is imported lazily and called by
`VMAgentServer.register_with_orchestrator`, but the module is missing from
src/.  Spec 4.3 / 6: the registration payload is the same wire object, plus
`"provisioning_token"?: jwt_str` "(if present) the provisioning token". -/
def register_agent_payload (vm_id api_key csr hostname
    registration_time : String) (provisioning_token : Option String) :
    List (String × JVal) :=
  build_registration_data vm_id api_key csr hostname registration_time ++
    (match provisioning_token with
     | some t => [("provisioning_token", .s t)]
     | none => [])

/-- Result of one HTTP POST attempt: either the server replied (status,
body text, parsed JSON object), or the transport layer failed
(DNS/connect/timeout — an `aiohttp` client exception `kind`). -/
inductive TransportOutcome where
  | response (status : Nat) (body : String)
      (json : List (String × String)) : TransportOutcome
  | network_failure (kind : String) : TransportOutcome
deriving DecidableEq

/-- Error kinds escaping `_request_certificate`: an explicit
`Exception("Registration failed: " + body)` for a non-200 reply, the
propagated transport exception for a network failure, and a `KeyError`
when a 200 reply lacks the `"certificate"` field. -/
inductive RegistrationError where
  | rejected (detail : String) : RegistrationError
  | network_error (kind : String) : RegistrationError
  | missing_certificate_field : RegistrationError
deriving DecidableEq

/-- `SecurityManager._request_certificate`: builds `registration_data` and
POSTs it once to `/api/v1/agents/register` (the session — a function of the
submitted payload and the attempt number — is consulted exactly once, at
attempt 0); non-200 raises
`Exception("Registration failed: " + text)`; a transport exception is
logged and re-raised unchanged; on 200 the `"certificate"` field of the
JSON body is returned. -/
def request_certificate (vm_id api_key csr hostname
    registration_time : String)
    (transport : List (String × JVal) → Nat → TransportOutcome) :
    Except RegistrationError String :=
  let registration_data :=
    build_registration_data vm_id api_key csr hostname registration_time
  match transport registration_data 0 with
  | .network_failure kind => .error (.network_error kind)
  | .response status body json =>
    if status ≠ 200 then
      .error (.rejected ("Registration failed: " ++ body))
    else
      match (json.find? (fun kv => kv.1 == "certificate")).map Prod.snd with
      | some cert => .ok cert
      | none => .error .missing_certificate_field

/-! ## TLS context construction -/

/-- Content of a PEM file on disk as seen by `load_cert_chain`: a leaf
certificate (identified by its embedded public key), a private key, or
unparseable bytes. -/
inductive PemContent where
  | cert (public_key : RSAPublicKey) : PemContent
  | key (private_key : RSAPrivateKey) : PemContent
  | garbage : PemContent
deriving DecidableEq

/-- A loaded server-side TLS context: the certificate/key pair accepted by
`SSLContext.load_cert_chain`. -/
structure SslContext where
  cert_public_key : RSAPublicKey
  private_key : RSAPrivateKey
deriving DecidableEq

/-- `SSLContext.load_cert_chain(certfile, keyfile)`: succeeds only on a
certificate whose public key is the public half of the key file's private
key; every failure is a generic `ssl.SSLError` carrying an OpenSSL reason
string, with "key values mismatch" for a cert/key inconsistency. -/
def load_cert_chain (c k : PemContent) : Except String SslContext :=
  match c, k with
  | .cert pub, .key priv =>
    if publicKeyOf priv == pub then .ok ⟨pub, priv⟩
    else .error "key values mismatch"
  | _, _ => .error "PEM lib"

/-- `VMAgentServer._create_ssl_context`: `None` when the config lacks
either path, `None` when either file is missing on disk, and — per the
`try/except` that logs and returns `None` — also `None` when
`load_cert_chain` raises; otherwise the loaded context.  `disk` maps a
path to the file found there. -/
def server_create_ssl_context (cert_file key_file : Option String)
    (disk : String → Option PemContent) : Option SslContext :=
  match cert_file, key_file with
  | some cf, some kf =>
    match disk cf, disk kf with
    | some c, some k =>
      match load_cert_chain c k with
      | .ok ctx => some ctx
      | .error _ => none
    | _, _ => none
  | _, _ => none

/-- `SecurityManager._create_ssl_context`: builds a default context with the
CA file when present, loads `vm.crt`/`vm.key` as the client chain only when
both exist, and has no exception handler — a `load_cert_chain` failure
propagates as the generic `ssl.SSLError` string.  `parse_cert` abstracts
PEM certificate parsing (the public key embedded in the stored PEM).
The result records the CA file used and the loaded chain, if any. -/
def sm_create_ssl_context (parse_cert : String → Option RSAPublicKey)
    (fs : SecurityFiles) :
    Except String (Option String × Option SslContext) :=
  let ca := fs.ca_cert_file
  match fs.vm_cert_file, fs.vm_key_file with
  | some certPem, some priv =>
    match parse_cert certPem with
    | none => .error "PEM lib"
    | some pub =>
      match load_cert_chain (.cert pub) (.key priv) with
      | .ok ctx => .ok (ca, some ctx)
      | .error e => .error e
  | _, _ => .ok (ca, none)

/-! ## encrypt_payload (PayloadCipher) -/

/-- Lower-case hex digit of a value below 16. -/
def hexDigit (n : Nat) : Char :=
  if n < 10 then Char.ofNat (48 + n) else Char.ofNat (87 + n)

/-- `bytes.hex()`: two lower-case hex digits per byte. -/
def bytesToHex (bs : List Nat) : String :=
  ⟨bs.foldr (fun b acc => hexDigit (b / 16 % 16) :: hexDigit (b % 16) :: acc)
    []⟩

/-- The envelope dict returned by `SecurityManager.encrypt_payload`. -/
structure EncryptedEnvelope where
  encrypted_data : String
  iv : String
  timestamp : String
  vm_id : String
  encrypted_key : Option String
  key_id : Option String
deriving DecidableEq

/-- `SecurityManager.encrypt_payload`.  `json_data` is the UTF-8 byte
serialisation of the input dict; `aes_key` (32 bytes) and `iv` (16 bytes)
are the fresh secrets drawn by this call; `aes_cbc` abstracts AES-256-CBC
encryption, `sha256_hexdigest` the SHA-256 hex digest, and `rsa_oaep_wrap`
RSA-OAEP(SHA-256) key wrapping.  The plaintext is padded with
`padding_length = 16 - len % 16` copies of the byte `padding_length`
before encryption; without a recipient key the envelope carries
`key_id = sha256(aes_key).hexdigest()[:16]`, with one it carries the
wrapped AES key instead. -/
def encrypt_payload
    (aes_cbc : List Nat → List Nat → List Nat → List Nat)
    (sha256_hexdigest : List Nat → String)
    (rsa_oaep_wrap : RSAPublicKey → List Nat → List Nat)
    (json_data aes_key iv : List Nat) (timestamp vm_id : String)
    (recipient_public_key : Option RSAPublicKey) : EncryptedEnvelope :=
  let padding_length := 16 - json_data.length % 16
  let padded_data :=
    json_data ++ List.replicate padding_length padding_length
  let encrypted_data := aes_cbc aes_key iv padded_data
  match recipient_public_key with
  | some pk =>
    { encrypted_data := bytesToHex encrypted_data
      iv := bytesToHex iv
      timestamp := timestamp
      vm_id := vm_id
      encrypted_key := some (bytesToHex (rsa_oaep_wrap pk aes_key))
      key_id := none }
  | none =>
    { encrypted_data := bytesToHex encrypted_data
      iv := bytesToHex iv
      timestamp := timestamp
      vm_id := vm_id
      encrypted_key := none
      key_id := some ((sha256_hexdigest aes_key).take 16) }

/-! ## SecurityManager initialisation -/

/-- `SecurityManager.initialize`: load-or-create the device id and API key,
store the CA certificate when one is supplied, generate the keypair and CSR
(written to `vm.key` / `vm.csr`), then request the certificate from the
orchestrator; only on success is the returned certificate written to
`vm.crt`.  On failure the exception propagates and the directory is left in
the state reached so far.  `csr_pem` abstracts PEM rendering of the CSR for
the wire payload. -/
def initSecurity (fs : SecurityFiles) (fresh_hex12 fresh_token : String)
    (seed : Nat) (ca_cert_content : Option String) (csr_pem : CSR → String)
    (hostname registration_time : String)
    (transport : List (String × JVal) → Nat → TransportOutcome) :
    Except RegistrationError (String × String) × SecurityFiles :=
  let r1 := get_or_create_vm_id fs fresh_hex12
  let vm_id := r1.1
  let r2 := get_or_create_api_key r1.2.1 fresh_token
  let api_key := r2.1
  let fs3 :=
    match ca_cert_content with
    | some ca => { r2.2.1 with ca_cert_file := some ca }
    | none => r2.2.1
  let g := generate_keypair_and_csr fs3 vm_id seed
  let fs4 := g.2
  match request_certificate vm_id api_key (csr_pem g.1.2) hostname
      registration_time transport with
  | .error e => (.error e, fs4)
  | .ok certificate =>
    (.ok (vm_id, api_key), { fs4 with vm_cert_file := some certificate })

/-! ## Helper lemmas -/

theorem verify_api_key_some_iff (k c : String) :
    verify_api_key (some k) c = true ↔ c = k := by
  show constant_time_compare k c = true ↔ c = k
  rw [constant_time_compare_iff]
  exact eq_comm

theorem verify_api_key_some_false (k c : String) (h : c ≠ k) :
    verify_api_key (some k) c = false := by
  cases hv : verify_api_key (some k) c with
  | false => rfl
  | true => exact absurd ((verify_api_key_some_iff k c).mp hv) h

theorem matchesAt_append (pat rest : List Char) :
    matchesAt pat (pat ++ rest) = true := by
  induction pat with
  | nil => simp [matchesAt]
  | cons p ps ih => simp [matchesAt, ih]

theorem pyRemoveAllAux_nil (pat : List Char) (f : Nat) :
    pyRemoveAllAux pat f [] = [] := by
  cases f <;> rfl

theorem pyRemoveAllAux_congr (pat : List Char) :
    ∀ (f g : Nat) (l : List Char), l.length ≤ f → l.length ≤ g →
      pyRemoveAllAux pat f l = pyRemoveAllAux pat g l := by
  intro f
  induction f with
  | zero =>
    intro g l hf _
    have hl : l = [] := List.length_eq_zero.mp (Nat.le_zero.mp hf)
    subst hl
    rw [pyRemoveAllAux_nil, pyRemoveAllAux_nil]
  | succ f ih =>
    intro g l hf hg
    cases l with
    | nil => rw [pyRemoveAllAux_nil, pyRemoveAllAux_nil]
    | cons c cs =>
      cases g with
      | zero => simp at hg
      | succ g =>
        simp only [pyRemoveAllAux]
        by_cases hcond : pat ≠ [] ∧ matchesAt pat (c :: cs) = true
        · rw [if_pos hcond, if_pos hcond]
          have hpat : 1 ≤ pat.length := by
            cases pat with
            | nil => exact absurd rfl hcond.1
            | cons _ _ => simp
          have hlen : ((c :: cs).drop pat.length).length ≤ cs.length := by
            simp only [List.length_drop, List.length_cons]
            omega
          have hf' : cs.length ≤ f := by simpa using Nat.lt_succ_iff.mp hf
          have hg' : cs.length ≤ g := by simpa using Nat.lt_succ_iff.mp hg
          exact ih g _ (le_trans hlen hf') (le_trans hlen hg')
        · rw [if_neg hcond, if_neg hcond]
          have hf' : cs.length ≤ f := by simpa using Nat.lt_succ_iff.mp hf
          have hg' : cs.length ≤ g := by simpa using Nat.lt_succ_iff.mp hg
          exact congrArg (c :: ·) (ih g cs hf' hg')

theorem pyRemoveAll_head_match (pat rest : List Char) (h : pat ≠ []) :
    pyRemoveAll pat (pat ++ rest) = pyRemoveAll pat rest := by
  cases pat with
  | nil => exact absurd rfl h
  | cons p ps =>
    have hmatch : matchesAt (p :: ps) (p :: (ps ++ rest)) = true := by
      simpa using matchesAt_append (p :: ps) rest
    have hdrop : (p :: (ps ++ rest)).drop (p :: ps).length = rest := by
      simp
    show pyRemoveAllAux (p :: ps) ((p :: ps) ++ rest).length
        ((p :: ps) ++ rest) = pyRemoveAll (p :: ps) rest
    rw [List.cons_append,
      show (p :: (ps ++ rest)).length = (ps ++ rest).length + 1 from rfl]
    simp only [pyRemoveAllAux]
    rw [if_pos ⟨h, hmatch⟩, hdrop]
    exact pyRemoveAllAux_congr (p :: ps) _ rest.length rest
      (by simp) le_rfl

theorem bearerStrip_bearer (t : String)
    (h : pyRemoveAll "Bearer ".data t.data = t.data) :
    bearerStrip ("Bearer " ++ t) = t := by
  have : ("Bearer " ++ t).data = "Bearer ".data ++ t.data := rfl
  unfold bearerStrip
  rw [this, pyRemoveAll_head_match _ _ (by decide), h]

/-! ## Claims -/

/-- C1: `verify_api_key(candidate)` performs a constant-time equality check
against the stored API key; for every candidate it returns true exactly when
the candidate equals the stored key, and (being a total function, hence
never throwing) returns false for any other candidate — including the empty
string, a single-character variation, or a strict prefix of the real key —
and returns false whenever no key material is stored. -/
theorem C1_verify_api_key (stored candidate : String) :
    (verify_api_key (some stored) candidate = true ↔ candidate = stored) ∧
    verify_api_key none candidate = false ∧
    (candidate ≠ stored →
      verify_api_key (some stored) candidate = false) := by
  exact ⟨verify_api_key_some_iff stored candidate, rfl,
    verify_api_key_some_false stored candidate⟩

theorem C1_verify_api_key_witness :
    verify_api_key (some "s3cret-key") "s3cret" = false ∧
    verify_api_key (some "s3cret-key") "" = false ∧
    verify_api_key (some "s3cret-kex") "s3cret-key" = false ∧
    verify_api_key (some "s3cret-key") "s3cret-key" = true :=
  ⟨(C1_verify_api_key "s3cret-key" "s3cret").2.2 (by decide),
   (C1_verify_api_key "s3cret-key" "").2.2 (by decide),
   (C1_verify_api_key "s3cret-kex" "s3cret-key").2.2 (by decide),
   (C1_verify_api_key "s3cret-key" "s3cret-key").1.mpr rfl⟩

/-- C2: the authorization gate lets `/health` and `/api/v1/ca-certificate`
through with no credential; for every other path the credential is the
`X-API-Key` header when that is present and non-empty, else the
`Authorization` header with `"Bearer "` removed; the request passes exactly
when the extracted credential equals the stored key (so `X-API-Key: K` and
`Authorization: Bearer K` both pass); every denial is the single uniform
401 response body. -/
theorem C2_authorization_gate (K : String) (r : HttpRequest) :
    (r.path = "/health" ∨ r.path = "/api/v1/ca-certificate" →
      auth_middleware (some K) r = .passed) ∧
    (¬(r.path = "/health" ∨ r.path = "/api/v1/ca-certificate") →
      (auth_middleware (some K) r = .passed ↔ extracted_api_key r = K) ∧
      (extracted_api_key r ≠ K →
        auth_middleware (some K) r = .denied 401 unauthorizedBody)) ∧
    (∀ v, r.xApiKey = some v → v ≠ "" → extracted_api_key r = v) ∧
    ((r.xApiKey = none ∨ r.xApiKey = some "") →
      extracted_api_key r = bearerStrip (r.authorization.getD "")) ∧
    (r.xApiKey = none → r.authorization = some ("Bearer " ++ K) →
      pyRemoveAll "Bearer ".data K.data = K.data →
      ¬(r.path = "/health" ∨ r.path = "/api/v1/ca-certificate") →
      auth_middleware (some K) r = .passed) := by
  have gate_eq : ¬(r.path = "/health" ∨ r.path = "/api/v1/ca-certificate") →
      auth_middleware (some K) r =
        if verify_api_key (some K) (extracted_api_key r) = true then
          AuthOutcome.passed
        else AuthOutcome.denied 401 unauthorizedBody := by
    intro hpriv
    unfold auth_middleware
    rw [if_neg hpriv]
  refine ⟨?_, ?_, ?_, ?_, ?_⟩
  · intro hpub
    unfold auth_middleware
    rw [if_pos hpub]
  · intro hpriv
    rw [gate_eq hpriv]
    refine ⟨⟨?_, ?_⟩, ?_⟩
    · intro hpass
      by_cases heq : extracted_api_key r = K
      · exact heq
      · rw [verify_api_key_some_false K _ heq] at hpass
        simp at hpass
    · intro heq
      rw [(verify_api_key_some_iff K _).mpr heq]
      simp
    · intro hne
      rw [verify_api_key_some_false K _ hne]
      simp
  · intro v hv hne
    unfold extracted_api_key
    rw [hv]
    simp [hne]
  · rintro (hx | hx)
    · unfold extracted_api_key
      rw [hx]
    · unfold extracted_api_key
      rw [hx]
      simp
  · intro hx hauth hK hpriv
    have hext : extracted_api_key r = K := by
      unfold extracted_api_key
      rw [hx, hauth]
      simpa using bearerStrip_bearer K hK
    rw [gate_eq hpriv, (verify_api_key_some_iff K _).mpr hext]
    simp

theorem C2_authorization_gate_witness :
    auth_middleware (some "K-123")
      ⟨"/health", none, none⟩ = .passed ∧
    (auth_middleware (some "K-123")
      ⟨"/mcp", some "K-123", none⟩ = .passed ↔
        extracted_api_key ⟨"/mcp", some "K-123", none⟩ = "K-123") ∧
    auth_middleware (some "K-123")
      ⟨"/mcp", some "wrong", some "Bearer also-wrong"⟩ =
        .denied 401 unauthorizedBody ∧
    auth_middleware (some "K-123")
      ⟨"/mcp", none, some ("Bearer " ++ "K-123")⟩ = .passed :=
  ⟨(C2_authorization_gate "K-123" ⟨"/health", none, none⟩).1
      (Or.inl rfl),
   ((C2_authorization_gate "K-123" ⟨"/mcp", some "K-123", none⟩).2.1
      (by decide)).1,
   ((C2_authorization_gate "K-123"
      ⟨"/mcp", some "wrong", some "Bearer also-wrong"⟩).2.1
      (by decide)).2 (by decide),
   (C2_authorization_gate "K-123"
      ⟨"/mcp", none, some ("Bearer " ++ "K-123")⟩).2.2.2.2 rfl rfl
      (by decide) (by decide)⟩

/-- First value stored under key `k` in a JSON object (dict lookup). -/
def payloadGet (p : List (String × JVal)) (k : String) : Option JVal :=
  (p.find? (fun kv => kv.1 == k)).map Prod.snd

/-- C3: a non-200 reply yields the REJECTED outcome surfacing the response
body as the error detail; a transport failure yields the NETWORK_ERROR
outcome; the two error kinds are distinct; and no internal retry happens —
the outcome depends only on the first (and only) request of the session. -/
theorem C3_registration_error_taxonomy
    (vm_id api_key csr hostname registration_time : String)
    (transport : List (String × JVal) → Nat → TransportOutcome) :
    (∀ status body json,
      transport (build_registration_data vm_id api_key csr hostname
        registration_time) 0 = .response status body json →
      status ≠ 200 →
      request_certificate vm_id api_key csr hostname registration_time
          transport =
        .error (.rejected ("Registration failed: " ++ body))) ∧
    (∀ kind,
      transport (build_registration_data vm_id api_key csr hostname
        registration_time) 0 = .network_failure kind →
      request_certificate vm_id api_key csr hostname registration_time
          transport =
        .error (.network_error kind)) ∧
    (∀ detail kind,
      RegistrationError.rejected detail ≠
        RegistrationError.network_error kind) ∧
    (∀ transport2 : List (String × JVal) → Nat → TransportOutcome,
      transport (build_registration_data vm_id api_key csr hostname
          registration_time) 0 =
        transport2 (build_registration_data vm_id api_key csr hostname
          registration_time) 0 →
      request_certificate vm_id api_key csr hostname registration_time
          transport =
        request_certificate vm_id api_key csr hostname registration_time
          transport2) := by
  refine ⟨?_, ?_, ?_, ?_⟩
  · intro status body json h hs
    simp only [request_certificate, h]
    rw [if_pos hs]
  · intro kind h
    simp only [request_certificate, h]
  · intro detail kind hEq
    exact RegistrationError.noConfusion hEq
  · intro transport2 h
    simp only [request_certificate, h]

theorem C3_registration_error_taxonomy_witness :
    request_certificate "vm-a" "key" "csr-pem" "host" "t0"
      (fun _ _ => .response 403 "invalid token" []) =
      .error (.rejected ("Registration failed: " ++ "invalid token")) ∧
    request_certificate "vm-a" "key" "csr-pem" "host" "t0"
      (fun _ _ => .network_failure "ConnectTimeout") =
      .error (.network_error "ConnectTimeout") :=
  ⟨(C3_registration_error_taxonomy "vm-a" "key" "csr-pem" "host" "t0"
      (fun _ _ => .response 403 "invalid token" [])).1
      403 "invalid token" [] rfl (by decide),
   (C3_registration_error_taxonomy "vm-a" "key" "csr-pem" "host" "t0"
      (fun _ _ => .network_failure "ConnectTimeout")).2.1
      "ConnectTimeout" rfl⟩

/-- C4: the payload submitted to the orchestrator carries the device id,
API key, CSR, hostname, registration timestamp, agent version and declared
tool capabilities; the `register_agent` payload additionally carries the
provisioning token whenever one is present, and without one it is exactly
the base payload. -/
theorem C4_registration_payload
    (vm_id api_key csr hostname registration_time : String)
    (tok : Option String) :
    (payloadGet (register_agent_payload vm_id api_key csr hostname
        registration_time tok) "vm_id" = some (.s vm_id) ∧
     payloadGet (register_agent_payload vm_id api_key csr hostname
        registration_time tok) "api_key" = some (.s api_key) ∧
     payloadGet (register_agent_payload vm_id api_key csr hostname
        registration_time tok) "csr" = some (.s csr) ∧
     payloadGet (register_agent_payload vm_id api_key csr hostname
        registration_time tok) "hostname" = some (.s hostname) ∧
     payloadGet (register_agent_payload vm_id api_key csr hostname
        registration_time tok) "registration_time" =
          some (.s registration_time) ∧
     payloadGet (register_agent_payload vm_id api_key csr hostname
        registration_time tok) "agent_version" = some (.s "1.0.0") ∧
     payloadGet (register_agent_payload vm_id api_key csr hostname
        registration_time tok) "capabilities" = some (.obj
          [("shell_executor", true), ("file_manager", true),
           ("system_monitor", true), ("log_analyzer", true)])) ∧
    (∀ t, tok = some t →
      payloadGet (register_agent_payload vm_id api_key csr hostname
        registration_time tok) "provisioning_token" = some (.s t)) ∧
    (tok = none →
      register_agent_payload vm_id api_key csr hostname registration_time
        tok =
      build_registration_data vm_id api_key csr hostname
        registration_time) := by
  refine ⟨?_, ?_, ?_⟩
  · cases tok <;>
      simp [payloadGet, register_agent_payload, build_registration_data,
        List.find?]
  · intro t ht
    subst ht
    simp [payloadGet, register_agent_payload, build_registration_data,
      List.find?]
  · intro ht
    subst ht
    simp [register_agent_payload]

theorem C4_registration_payload_witness :
    payloadGet (register_agent_payload "vm-a" "key" "csr-pem" "host" "t0"
      (some "jwt-token")) "provisioning_token" = some (.s "jwt-token") :=
  (C4_registration_payload "vm-a" "key" "csr-pem" "host" "t0"
      (some "jwt-token")).2.1 "jwt-token" rfl

/-- C6: running `get_or_create_vm_id` and `get_or_create_api_key` a second
time in sequence against the directory left by the first round returns the
same two values, changes nothing on disk, and performs no write; and
whenever `vm.id` or `api.key` already holds a (whitespace-free) value, that
value is returned as-is with no write.  The freshness hypotheses say the
generated id and token carry no surrounding whitespace, as `uuid4().hex`
and `token_urlsafe` guarantee. -/
theorem C6_credential_idempotence (fs : SecurityFiles)
    (f1 t1 f2 t2 : String)
    (hf1 : pyStrip ("vm-" ++ f1) = "vm-" ++ f1)
    (ht1 : pyStrip t1 = t1) :
    (get_or_create_vm_id
        (get_or_create_api_key (get_or_create_vm_id fs f1).2.1 t1).2.1 f2 =
      ((get_or_create_vm_id fs f1).1,
       (get_or_create_api_key (get_or_create_vm_id fs f1).2.1 t1).2.1,
       false)) ∧
    (get_or_create_api_key
        (get_or_create_vm_id
          (get_or_create_api_key (get_or_create_vm_id fs f1).2.1 t1).2.1
          f2).2.1 t2 =
      ((get_or_create_api_key (get_or_create_vm_id fs f1).2.1 t1).1,
       (get_or_create_api_key (get_or_create_vm_id fs f1).2.1 t1).2.1,
       false)) ∧
    (∀ c, fs.vm_id_file = some c → pyStrip c = c →
      get_or_create_vm_id fs f1 = (c, fs, false)) ∧
    (∀ c, fs.api_key_file = some c → pyStrip c = c →
      get_or_create_api_key fs t1 = (c, fs, false)) := by
  refine ⟨?_, ?_, ?_, ?_⟩
  · cases hid : fs.vm_id_file <;> cases hkey : fs.api_key_file <;>
      simp [get_or_create_vm_id, get_or_create_api_key, hid, hkey, hf1]
  · cases hid : fs.vm_id_file <;> cases hkey : fs.api_key_file <;>
      simp [get_or_create_vm_id, get_or_create_api_key, hid, hkey, hf1, ht1]
  · intro c hc hs
    simp [get_or_create_vm_id, hc, hs]
  · intro c hc hs
    simp [get_or_create_api_key, hc, hs]

theorem C6_credential_idempotence_witness :
    get_or_create_vm_id
        (get_or_create_api_key
          (get_or_create_vm_id ⟨none, none, none, none, none, none⟩
            "0a1b2c3d4e5f").2.1 "tok-A1").2.1 "eeeeeeeeeeee" =
      ((get_or_create_vm_id ⟨none, none, none, none, none, none⟩
          "0a1b2c3d4e5f").1,
       (get_or_create_api_key
          (get_or_create_vm_id ⟨none, none, none, none, none, none⟩
            "0a1b2c3d4e5f").2.1 "tok-A1").2.1,
       false) :=
  (C6_credential_idempotence ⟨none, none, none, none, none, none⟩
    "0a1b2c3d4e5f" "tok-A1" "eeeeeeeeeeee" "tok-B2"
    (by decide) (by decide)).1

/-- C7: every call to `generate_keypair_and_csr` produces a 2048-bit RSA
key (public exponent 65537) determined by the fresh entropy consumed at
that call — calls that consume different entropy yield different keys, so
no prior key is ever reused — and the produced CSR has subject CN equal to
the device id, a SAN DNS entry equal to the device id, and a signature that
verifies against the public key embedded in the CSR. -/
theorem C7_csr_generation (fs : SecurityFiles) (vm_id : String)
    (seed : Nat) :
    (generate_keypair_and_csr fs vm_id seed).1.1.key_size = 2048 ∧
    (generate_keypair_and_csr fs vm_id seed).1.1.public_exponent = 65537 ∧
    subjectAttr (generate_keypair_and_csr fs vm_id seed).1.2 "CN" =
      some vm_id ∧
    (generate_keypair_and_csr fs vm_id seed).1.2.san_dns = [vm_id] ∧
    csr_signature_valid (generate_keypair_and_csr fs vm_id seed).1.2 =
      true ∧
    (generate_keypair_and_csr fs vm_id seed).1.2.public_key =
      publicKeyOf (generate_keypair_and_csr fs vm_id seed).1.1 ∧
    (∀ (fs2 : SecurityFiles) (vm2 : String) (seed2 : Nat), seed2 ≠ seed →
      (generate_keypair_and_csr fs2 vm2 seed2).1.1 ≠
        (generate_keypair_and_csr fs vm_id seed).1.1) := by
  refine ⟨rfl, rfl, ?_, rfl, ?_, rfl, ?_⟩
  · simp [subjectAttr, generate_keypair_and_csr, List.find?]
  · simp [csr_signature_valid, generate_keypair_and_csr]
  · intro fs2 vm2 seed2 hne
    simp [generate_keypair_and_csr, generate_private_key,
      RSAPrivateKey.mk.injEq, hne]

theorem C7_csr_generation_witness :
    (generate_keypair_and_csr ⟨none, none, none, none, none, none⟩
        "vm-abc123" 2).1.1 ≠
      (generate_keypair_and_csr ⟨none, none, none, none, none, none⟩
        "vm-abc123" 1).1.1 :=
  (C7_csr_generation ⟨none, none, none, none, none, none⟩
    "vm-abc123" 1).2.2.2.2.2.2
    ⟨none, none, none, none, none, none⟩ "vm-abc123" 2 (by decide)

/-- C8: the server TLS context builder returns no TLS (`none`, not an
error) whenever the certificate file is missing from disk or the key file
is missing from disk, and returns a loaded, usable context when both files
are present and the certificate matches the key. -/
theorem C8_server_tls_fallback (cf kf : String)
    (disk : String → Option PemContent) :
    (disk cf = none →
      server_create_ssl_context (some cf) (some kf) disk = none) ∧
    (disk kf = none →
      server_create_ssl_context (some cf) (some kf) disk = none) ∧
    (∀ pub priv, disk cf = some (.cert pub) → disk kf = some (.key priv) →
      publicKeyOf priv = pub →
      server_create_ssl_context (some cf) (some kf) disk =
        some ⟨pub, priv⟩) := by
  refine ⟨?_, ?_, ?_⟩
  · intro h
    cases hk : disk kf <;> simp [server_create_ssl_context, h, hk]
  · intro h
    cases hc : disk cf <;> simp [server_create_ssl_context, h, hc]
  · intro pub priv hc hk hmatch
    simp [server_create_ssl_context, hc, hk, load_cert_chain, hmatch]

theorem C8_server_tls_fallback_witness :
    server_create_ssl_context (some "/opt/vm-agent/security/server.crt")
      (some "/opt/vm-agent/security/server.key") (fun _ => none) = none ∧
    server_create_ssl_context (some "server.crt") (some "server.key")
      (fun p =>
        if p = "server.crt" then
          some (.cert (publicKeyOf (generate_private_key 65537 2048 0)))
        else if p = "server.key" then
          some (.key (generate_private_key 65537 2048 0))
        else none) =
      some ⟨publicKeyOf (generate_private_key 65537 2048 0),
        generate_private_key 65537 2048 0⟩ :=
  ⟨(C8_server_tls_fallback "/opt/vm-agent/security/server.crt"
      "/opt/vm-agent/security/server.key" (fun _ => none)).1 rfl,
   (C8_server_tls_fallback "server.crt" "server.key" _).2.2
      (publicKeyOf (generate_private_key 65537 2048 0))
      (generate_private_key 65537 2048 0)
      (by decide) (by decide) rfl⟩

/-- C5 counterexample: with a certificate on disk whose public key does not
correspond to the stored private key, the server TLS builder yields `none`
— the same outcome as when the files are absent altogether, i.e. a
silently degraded (cleartext) context rather than a distinctly reported
mismatch — and the underlying load failure is the generic SSL error
string, there being no `CertificateKeyMismatchError` kind anywhere in the
code. -/
theorem C5_counterexample :
    server_create_ssl_context (some "server.crt") (some "server.key")
      (fun p =>
        if p = "server.crt" then
          some (.cert (publicKeyOf (generate_private_key 65537 2048 10)))
        else if p = "server.key" then
          some (.key (generate_private_key 65537 2048 11))
        else none) = none ∧
    server_create_ssl_context (some "server.crt") (some "server.key")
      (fun _ => none) = none ∧
    load_cert_chain
      (.cert (publicKeyOf (generate_private_key 65537 2048 10)))
      (.key (generate_private_key 65537 2048 11)) =
      .error "key values mismatch" :=
  ⟨by decide, by decide, by rfl⟩

/-- C5 amended: a cert/key mismatch is NOT surfaced as a distinct
`CertificateKeyMismatchError`: `VMAgentServer._create_ssl_context` catches
the load failure and returns `none` (a silently degraded, cleartext
context), while `SecurityManager._create_ssl_context` propagates the
generic SSL error string produced by `load_cert_chain`. -/
theorem C5_amended_mismatch_handling (cf kf : String)
    (disk : String → Option PemContent) (pub : RSAPublicKey)
    (priv : RSAPrivateKey) (parse_cert : String → Option RSAPublicKey)
    (fs : SecurityFiles) (certPem : String)
    (hc : disk cf = some (.cert pub)) (hk : disk kf = some (.key priv))
    (hmm : publicKeyOf priv ≠ pub)
    (hcrt : fs.vm_cert_file = some certPem)
    (hkey : fs.vm_key_file = some priv)
    (hparse : parse_cert certPem = some pub) :
    server_create_ssl_context (some cf) (some kf) disk = none ∧
    sm_create_ssl_context parse_cert fs = .error "key values mismatch" := by
  constructor
  · simp [server_create_ssl_context, hc, hk, load_cert_chain, hmm]
  · simp [sm_create_ssl_context, hcrt, hkey, hparse, load_cert_chain, hmm]

theorem C5_amended_mismatch_handling_witness :
    server_create_ssl_context (some "server.crt") (some "server.key")
      (fun p =>
        if p = "server.crt" then
          some (.cert (publicKeyOf (generate_private_key 65537 2048 10)))
        else if p = "server.key" then
          some (.key (generate_private_key 65537 2048 11))
        else none) = none ∧
    sm_create_ssl_context
      (fun s =>
        if s = "PEM-CERT-A" then
          some (publicKeyOf (generate_private_key 65537 2048 10))
        else none)
      ⟨none, none, some (generate_private_key 65537 2048 11), none,
        some "PEM-CERT-A", none⟩ = .error "key values mismatch" :=
  C5_amended_mismatch_handling "server.crt" "server.key" _
    (publicKeyOf (generate_private_key 65537 2048 10))
    (generate_private_key 65537 2048 11) _
    ⟨none, none, some (generate_private_key 65537 2048 11), none,
      some "PEM-CERT-A", none⟩ "PEM-CERT-A"
    (by decide) (by decide) (by decide) rfl rfl (by decide)

/-- C9: `encrypt_payload` encrypts exactly the serialized bytes extended
with `padding_length = 16 - len % 16` copies of the byte `padding_length`
(a value between 1 and 16, equal to 16 — one full block — when the length
is already block-aligned, and making the padded length a multiple of 16);
and when no recipient public key is supplied the envelope carries no
wrapped key and its `key_id` is the first 16 hex characters of
SHA-256(aes_key). -/
theorem C9_padding_and_key_id
    (aes_cbc : List Nat → List Nat → List Nat → List Nat)
    (sha256_hexdigest : List Nat → String)
    (rsa_oaep_wrap : RSAPublicKey → List Nat → List Nat)
    (json_data aes_key iv : List Nat) (timestamp vm_id : String) :
    ((encrypt_payload aes_cbc sha256_hexdigest rsa_oaep_wrap json_data
        aes_key iv timestamp vm_id none).encrypted_data =
      bytesToHex (aes_cbc aes_key iv (json_data ++
        List.replicate (16 - json_data.length % 16)
          (16 - json_data.length % 16)))) ∧
    (1 ≤ 16 - json_data.length % 16 ∧ 16 - json_data.length % 16 ≤ 16) ∧
    ((json_data ++ List.replicate (16 - json_data.length % 16)
        (16 - json_data.length % 16)).length % 16 = 0) ∧
    (json_data.length % 16 = 0 → 16 - json_data.length % 16 = 16) ∧
    ((encrypt_payload aes_cbc sha256_hexdigest rsa_oaep_wrap json_data
        aes_key iv timestamp vm_id none).key_id =
      some ((sha256_hexdigest aes_key).take 16)) ∧
    ((encrypt_payload aes_cbc sha256_hexdigest rsa_oaep_wrap json_data
        aes_key iv timestamp vm_id none).encrypted_key = none) ∧
    (∀ pk, (encrypt_payload aes_cbc sha256_hexdigest rsa_oaep_wrap
        json_data aes_key iv timestamp vm_id (some pk)).encrypted_key =
      some (bytesToHex (rsa_oaep_wrap pk aes_key))) := by
  refine ⟨rfl, ⟨?_, ?_⟩, ?_, ?_, rfl, rfl, fun pk => rfl⟩
  · omega
  · omega
  · simp only [List.length_append, List.length_replicate]
    omega
  · intro h
    omega

theorem C9_padding_and_key_id_witness :
    16 - (List.replicate 32 (7 : Nat)).length % 16 = 16 ∧
    ((List.replicate 32 (7 : Nat)) ++
      List.replicate (16 - (List.replicate 32 (7 : Nat)).length % 16)
        (16 - (List.replicate 32 (7 : Nat)).length % 16)).length % 16 =
      0 :=
  ⟨((C9_padding_and_key_id (fun _ _ d => d) (fun _ => "")
      (fun _ k => k) (List.replicate 32 7) [] [] "t" "vm"
      ).2.2.2.1) (by decide),
   (C9_padding_and_key_id (fun _ _ d => d) (fun _ => "")
      (fun _ k => k) (List.replicate 32 7) [] [] "t" "vm").2.2.1⟩

/-- An HTTP attempt whose outcome makes `_request_certificate` raise:
transport failure, non-200 status, or a 200 body with no `certificate`
field. -/
def attemptFails : TransportOutcome → Prop
  | .network_failure _ => True
  | .response status _ json =>
    status ≠ 200 ∨ json.find? (fun kv => kv.1 == "certificate") = none

theorem request_certificate_not_ok (vm ak c h n : String)
    (transport : List (String × JVal) → Nat → TransportOutcome)
    (hfail : attemptFails
      (transport (build_registration_data vm ak c h n) 0)) :
    ∀ cert, request_certificate vm ak c h n transport ≠ .ok cert := by
  intro cert hok
  simp only [request_certificate] at hok
  cases ht : transport (build_registration_data vm ak c h n) 0 with
  | network_failure k =>
    simp only [ht] at hok
    exact Except.noConfusion hok
  | response s b j =>
    rw [ht] at hfail
    simp only [ht] at hok
    simp only [attemptFails] at hfail
    by_cases hs : s = 200
    · rw [if_neg (by simp [hs])] at hok
      have hnone : j.find? (fun kv => kv.1 == "certificate") = none := by
        rcases hfail with h200 | hnone
        · exact absurd hs h200
        · exact hnone
      rw [hnone] at hok
      exact Except.noConfusion hok
    · rw [if_pos hs] at hok
      exact Except.noConfusion hok

/-- C10: when the certificate request made inside `initialize` fails (the
single attempt is a transport failure, a non-200 reply, or a reply with no
certificate field), the raised error propagates, `vm.crt` is left exactly
as it was, and `vm.key` and `vm.csr` have already been overwritten with
the freshly generated key and the CSR signed by it before the network call
was attempted. -/
theorem C10_init_failure_frame (fs : SecurityFiles) (f1 t1 : String)
    (seed : Nat) (ca : Option String) (csr_pem : CSR → String)
    (hostname now : String)
    (transport : List (String × JVal) → Nat → TransportOutcome)
    (hfail : ∀ p, attemptFails (transport p 0)) :
    ∀ res fsF,
      initSecurity fs f1 t1 seed ca csr_pem hostname now transport =
        (res, fsF) →
      fsF.vm_cert_file = fs.vm_cert_file ∧
      fsF.vm_key_file = some (generate_private_key 65537 2048 seed) ∧
      (∃ c : CSR, fsF.vm_csr_file = some c ∧
        c.signing_key = generate_private_key 65537 2048 seed ∧
        subjectAttr c "CN" = some (get_or_create_vm_id fs f1).1 ∧
        c.san_dns = [(get_or_create_vm_id fs f1).1]) ∧
      (∃ e, res = Except.error e) := by
  intro res fsF h
  simp only [initSecurity] at h
  split at h
  next e he =>
    injection h with h1 h2
    subst h1
    subst h2
    refine ⟨?_, rfl, ⟨_, rfl, rfl, ?_, rfl⟩, ⟨e, rfl⟩⟩
    · cases ca <;> cases hid : fs.vm_id_file <;>
        cases hkey : fs.api_key_file <;>
        simp [generate_keypair_and_csr, get_or_create_api_key,
          get_or_create_vm_id, hid, hkey]
    · simp [subjectAttr, List.find?]
  next cert he =>
    exact absurd he
      (request_certificate_not_ok _ _ _ _ _ transport (hfail _) cert)

theorem C10_init_failure_frame_witness :
    (initSecurity ⟨none, none, none, none, none, some "CA"⟩ "0a1b2c3d4e5f"
        "tok-A1" 5 none (fun _ => "CSR-PEM") "host1" "t-now"
        (fun _ _ => .network_failure "dns")).2.vm_cert_file =
      (⟨none, none, none, none, none, some "CA"⟩ :
        SecurityFiles).vm_cert_file ∧
    (initSecurity ⟨none, none, none, none, none, some "CA"⟩ "0a1b2c3d4e5f"
        "tok-A1" 5 none (fun _ => "CSR-PEM") "host1" "t-now"
        (fun _ _ => .network_failure "dns")).2.vm_key_file =
      some (generate_private_key 65537 2048 5) ∧
    (∃ c : CSR,
      (initSecurity ⟨none, none, none, none, none, some "CA"⟩
          "0a1b2c3d4e5f" "tok-A1" 5 none (fun _ => "CSR-PEM") "host1"
          "t-now" (fun _ _ => .network_failure "dns")).2.vm_csr_file =
        some c ∧
      c.signing_key = generate_private_key 65537 2048 5 ∧
      subjectAttr c "CN" =
        some (get_or_create_vm_id
          ⟨none, none, none, none, none, some "CA"⟩ "0a1b2c3d4e5f").1 ∧
      c.san_dns = [(get_or_create_vm_id
        ⟨none, none, none, none, none, some "CA"⟩ "0a1b2c3d4e5f").1]) ∧
    (∃ e, (initSecurity ⟨none, none, none, none, none, some "CA"⟩
        "0a1b2c3d4e5f" "tok-A1" 5 none (fun _ => "CSR-PEM") "host1"
        "t-now" (fun _ _ => .network_failure "dns")).1 =
      Except.error e) :=
  C10_init_failure_frame ⟨none, none, none, none, none, some "CA"⟩
    "0a1b2c3d4e5f" "tok-A1" 5 none (fun _ => "CSR-PEM") "host1" "t-now"
    (fun _ _ => .network_failure "dns")
    (by intro p; simp [attemptFails]) _ _ rfl

end VmAgent
